import Mathlib

/-!
Shallow embedding of the PromptLayer "completion client"
(src/services/openaiClient.ts) and "response structurer"
(src/services/promptEnhancer.ts, parseEnhancedPrompt).

Modelling conventions:
* JS numbers carrying fractional values (costs, prices, temperature,
  parsed confidence) are modelled as rationals; token counts and HTTP
  status codes as Nat; millisecond clock values as Int (so that the JS
  subtraction `now - lastRequestTime` is represented exactly).
* JS strings are modelled as Lean `String`; string algorithms run over
  `List Char` (a JS string is a sequence of code units; all inputs of
  interest are ASCII, for which the two views agree).
* The outcome of one `fetch` round trip (`fetchWithTimeout`) is abstracted
  as a `FetchResult`: the abort-timer firing, a non-abort rejection of
  `fetch`, or an HTTP response together with the fields of its parsed JSON
  body that the client reads.
* `throw`/`try`/`catch` on `PromptLayerError` is modelled with `Except`.
* The one storage effect of the client, persisting the `UsageStats`
  record in `trackUsage`, is modelled by a `stats` field of the client
  state plus an `Env.persistOk` flag: when the flag is false the
  storage write throws, and `trackUsage`'s catch swallows the error,
  leaving the persisted record unchanged.
-/

/-- Error taxonomy from src/utils/validation.ts, `enum ErrorType`. -/
inductive ErrorType where
  | API_KEY_MISSING
  | API_KEY_INVALID
  | API_RATE_LIMIT
  | API_NETWORK_ERROR
  | STORAGE_QUOTA_EXCEEDED
  | STORAGE_RATE_LIMIT
  | INVALID_INPUT
  | UNKNOWN_ERROR
deriving DecidableEq, Repr

/-- PromptLayerError: we keep the error type and the short machine
message (the `message` constructor argument); the long `userMessage` is
not needed by any claim and is dropped. -/
structure PromptLayerError where
  type : ErrorType
  message : String
deriving DecidableEq, Repr

/-- OpenAIConfig from src/utils/validation.ts. -/
structure OpenAIConfig where
  apiKey : String
  model : String
  temperature : ℚ
  maxTokens : Nat
deriving DecidableEq, Repr

/-- The slice of `UsageStats` read or written by
`OpenAIClient.trackUsage`.  The remaining `UsageStats` fields
(enhancementsPerformed, promptsSaved, ...) are never touched by the
client and are omitted from the model. -/
structure UsageStats where
  totalTokensUsed : Nat
  totalCostUSD : ℚ
  monthlyCostUSD : ℚ
  currentMonth : String
deriving DecidableEq, Repr

/-- One row of the PRICING table (USD per 1M tokens). -/
structure Pricing where
  input : ℚ
  output : ℚ
deriving DecidableEq, Repr

/-- The PRICING table of openaiClient.ts, as a lookup function. -/
def PRICING (model : String) : Option Pricing :=
  if model = "gpt-4o-mini" then some ⟨15/100, 60/100⟩
  else if model = "gpt-4o" then some ⟨250/100, 10⟩
  else if model = "gpt-4" then some ⟨30, 60⟩
  else if model = "gpt-3.5-turbo" then some ⟨50/100, 150/100⟩
  else none

/-- `PRICING[model as keyof typeof PRICING] || PRICING['gpt-4o-mini']`:
lookup with fallback to the gpt-4o-mini tier. -/
def pricingFor (model : String) : Pricing :=
  (PRICING model).getD ⟨15/100, 60/100⟩

/-- Pure core of `OpenAIClient.trackUsage`.  `currentMonth` is the value
of `new Date().toISOString().slice(0, 7)` at the moment of the call;
`stats` is the record returned by `storageService.getStats()`.  Returns
the record passed to `storageService.updateStats`. -/
def trackUsage (promptTokens completionTokens : Nat) (model : String)
    (currentMonth : String) (stats : UsageStats) : UsageStats :=
  let stats1 := if stats.currentMonth ≠ currentMonth
    then { stats with monthlyCostUSD := 0, currentMonth := currentMonth }
    else stats
  let pricing := pricingFor model
  let inputCost := (promptTokens : ℚ) / 1000000 * pricing.input
  let outputCost := (completionTokens : ℚ) / 1000000 * pricing.output
  let totalCost := inputCost + outputCost
  { totalTokensUsed := stats1.totalTokensUsed + promptTokens + completionTokens
    totalCostUSD := stats1.totalCostUSD + totalCost
    monthlyCostUSD := stats1.monthlyCostUSD + totalCost
    currentMonth := currentMonth }

/-- Mutable fields of the `OpenAIClient` singleton, plus the persisted
usage record (`stats`). -/
structure ClientState where
  config : Option OpenAIConfig
  requestCount : Nat
  lastRequestTime : Int
  stats : UsageStats
deriving DecidableEq, Repr

/-- Collaborating environment: the persisted settings and API key read
by `initialize`, whether storage writes succeed (`persistOk`), and the
current calendar month string used by `trackUsage`. -/
structure Env where
  storedApiKey : Option String
  settingsModel : String
  settingsTemperature : ℚ
  settingsMaxTokens : Nat
  persistOk : Bool
  currentMonth : String
deriving DecidableEq, Repr

structure ChatMessage where
  role : String
  content : String
deriving DecidableEq, Repr

structure ChatCompletionParams where
  messages : List ChatMessage
  model : Option String
  temperature : Option ℚ
  maxTokens : Option Nat
deriving DecidableEq, Repr

/-- The `usage` sub-object of a successful response body (the
`prompt_tokens || 0` / `completion_tokens || 0` defaulting folds a
missing count into the count 0). -/
structure Usage where
  prompt_tokens : Nat
  completion_tokens : Nat
deriving DecidableEq, Repr

/-- The fields of a parsed response JSON body read by `makeRequest`:
`errorData.error?.message`, `data.choices?.[0]?.message?.content`, and
`data.usage`. -/
structure ResponseBody where
  errorMessage : Option String
  content : Option String
  usage : Option Usage
deriving DecidableEq, Repr

/-- Outcome of one `fetchWithTimeout` round trip as observed by
`makeRequest`: the 30-second abort timer fired, the `fetch` promise
rejected with a non-abort error, or an HTTP response arrived with the
given status and parsed body. -/
inductive FetchResult where
  | timeout
  | netFailure
  | response (status : Nat) (body : ResponseBody)
deriving DecidableEq, Repr

def MAX_RETRIES : Nat := 3

def MAX_REQUESTS_PER_MINUTE : Nat := 50

def REQUEST_TIMEOUT : Nat := 30000

/-- `OpenAIClient.initialize`: reads the persisted API key; throws
`API_KEY_MISSING` when absent, otherwise builds the config from the
persisted settings. -/
def initConfig (env : Env) : Except PromptLayerError OpenAIConfig :=
  match env.storedApiKey with
  | none => .error ⟨.API_KEY_MISSING, "API key not found"⟩
  | some k => .ok ⟨k, env.settingsModel, env.settingsTemperature, env.settingsMaxTokens⟩

/-- `OpenAIClient.checkRateLimit` at clock value `now`: resets the
counter when more than a minute has passed, throws `API_RATE_LIMIT`
when the (possibly reset) counter has reached the ceiling, otherwise
increments the counter and stamps the time.  (When the throw fires no
reset has happened, so the state is returned unchanged.) -/
def checkRateLimit (st : ClientState) (now : Int) : Except PromptLayerError ClientState :=
  let timeSinceLastRequest := now - st.lastRequestTime
  let rc := if timeSinceLastRequest > 60000 then 0 else st.requestCount
  if rc ≥ MAX_REQUESTS_PER_MINUTE then
    .error ⟨.API_RATE_LIMIT, "Rate limit exceeded"⟩
  else
    .ok { st with requestCount := rc + 1, lastRequestTime := now }

/-- JS falsiness of the optional string `content`
(`if (!content) ...`): absent or empty. -/
def isFalsyStr : Option String → Bool
  | none => true
  | some s => s = ""

/-- JS `o || d` for an optional string `o` (absent and empty both fall
back to the default). -/
def jsOrStr (o : Option String) (d : String) : String :=
  match o with
  | some s => if s = "" then d else s
  | none => d

instance {ε α : Type} [DecidableEq ε] [DecidableEq α] : DecidableEq (Except ε α) :=
  fun a b =>
    match a, b with
    | .error e, .error f =>
      if h : e = f then .isTrue (by rw [h]) else .isFalse (by intro hx; cases hx; exact h rfl)
    | .ok x, .ok y =>
      if h : x = y then .isTrue (by rw [h]) else .isFalse (by intro hx; cases hx; exact h rfl)
    | .error _, .ok _ => .isFalse (by intro hx; cases hx)
    | .ok _, .error _ => .isFalse (by intro hx; cases hx)

/-- Result of a `makeRequest` call: the returned text or thrown error,
the final client state, the number of network attempts performed, and
the list of backoff delays (ms) awaited, in order. -/
structure ReqResult where
  result : Except PromptLayerError String
  state : ClientState
  networkAttempts : Nat
  delays : List Nat
deriving DecidableEq, Repr

/-- `OpenAIClient.makeRequest(params, retryCount)`.

`clock n` is `Date.now()` at the n-th network attempt of this call;
`net n` is the outcome of the n-th attempt's `fetchWithTimeout`.

The recursion of the source (`makeRequest(params, retryCount + 1)`,
guarded by `retryCount < MAX_RETRIES`) is bounded; the extra `fuel`
argument makes it structural.  Every entry point supplies
`fuel = MAX_RETRIES + 1 - retryCount`, so the fuel-0 branch is
unreachable (the guard keeps `retryCount` below `MAX_RETRIES` at every
recursive call).

Branches, in source order: lazy `initialize` when `config` is null (its
`API_KEY_MISSING` throw propagates before any network attempt); the
defensive re-check of `config`; `checkRateLimit`; then the attempt.  A
timeout is thrown by `fetchWithTimeout` as a `PromptLayerError`, which
the catch block rethrows without retrying; a non-`PromptLayerError`
network failure is retried with exponential backoff while
`retryCount < MAX_RETRIES`; 401 fails fast; 429 retries with the same
backoff, failing with the remote rate-limit error on exhaustion; other
non-2xx statuses fail fast; a 2xx response with falsy content fails
with `UNKNOWN_ERROR`; otherwise `trackUsage` runs (when a usage object
is present) and the content is returned. -/
def makeRequest (env : Env) (clock : Nat → Int) (net : Nat → FetchResult)
    (params : ChatCompletionParams) :
    Nat → ClientState → Nat → ReqResult
  | 0, st, _ => ⟨.error ⟨.UNKNOWN_ERROR, "unreachable: fuel exhausted"⟩, st, 0, []⟩
  | fuel + 1, st, retryCount =>
    match (match st.config with
           | some _ => Except.ok st
           | none =>
             match initConfig env with
             | .error e => .error e
             | .ok c => .ok { st with config := some c }) with
    | .error e => ⟨.error e, st, 0, []⟩
    | .ok st1 =>
      match st1.config with
      | none => ⟨.error ⟨.API_KEY_MISSING, "Configuration not initialized"⟩, st1, 0, []⟩
      | some config =>
        match checkRateLimit st1 (clock retryCount) with
        | .error e => ⟨.error e, st1, 0, []⟩
        | .ok st2 =>
          match net retryCount with
          | .timeout =>
            ⟨.error ⟨.API_NETWORK_ERROR, "Request timeout"⟩, st2, 1, []⟩
          | .netFailure =>
            if retryCount < MAX_RETRIES then
              let waitTime := 2 ^ retryCount * 1000
              let r := makeRequest env clock net params fuel st2 (retryCount + 1)
              ⟨r.result, r.state, 1 + r.networkAttempts, waitTime :: r.delays⟩
            else
              ⟨.error ⟨.API_NETWORK_ERROR, "Network error"⟩, st2, 1, []⟩
          | .response status body =>
            if ¬ (200 ≤ status ∧ status ≤ 299) then
              if status = 401 then
                ⟨.error ⟨.API_KEY_INVALID, "Invalid API key"⟩, st2, 1, []⟩
              else if status = 429 then
                if retryCount < MAX_RETRIES then
                  let waitTime := 2 ^ retryCount * 1000
                  let r := makeRequest env clock net params fuel st2 (retryCount + 1)
                  ⟨r.result, r.state, 1 + r.networkAttempts, waitTime :: r.delays⟩
                else
                  ⟨.error ⟨.API_RATE_LIMIT, "Rate limited by OpenAI"⟩, st2, 1, []⟩
              else
                ⟨.error ⟨.API_NETWORK_ERROR, "API error: " ++ toString status⟩, st2, 1, []⟩
            else
              if isFalsyStr body.content then
                ⟨.error ⟨.UNKNOWN_ERROR, "No response from API"⟩, st2, 1, []⟩
              else
                let st3 :=
                  match body.usage with
                  | some u =>
                    if env.persistOk then
                      { st2 with stats := (trackUsage u.prompt_tokens u.completion_tokens
                          (jsOrStr params.model config.model) env.currentMonth st2.stats) }
                    else st2
                  | none => st2
                ⟨.ok (body.content.getD ""), st3, 1, []⟩

/-- `OpenAIClient.chatCompletion` — the public `complete()` operation:
`makeRequest(params)` with `retryCount = 0`. -/
def chatCompletion (env : Env) (clock : Nat → Int) (net : Nat → FetchResult)
    (params : ChatCompletionParams) (st : ClientState) : ReqResult :=
  makeRequest env clock net params (MAX_RETRIES + 1) st 0

/-!
Response structurer: `PromptEnhancer.parseEnhancedPrompt`
(src/services/promptEnhancer.ts).  The algorithms run over `List Char`.
-/

/-- Optional suggested-role record (`SuggestedRole`).  `confidence` is
the result of `parseFloat` on the regex capture; `none` models `NaN`
(possible only for a capture with no digit, such as "."). -/
structure SuggestedRole where
  name : String
  description : String
  category : String
  confidence : Option ℚ
  reason : String
deriving DecidableEq, Repr

/-- `EnhancedPrompt` as produced by `parseEnhancedPrompt` (the optional
`metadata` field is attached later by `enhance`, outside the parser, and
is omitted). -/
structure EnhancedPrompt where
  role : String
  objective : String
  constraints : List String
  outputFormat : String
  fullText : String
  suggestedRole : Option SuggestedRole
deriving DecidableEq, Repr

/-- ASCII whitespace recognized by JS `trim` and `\s` (the JS versions
also accept some non-ASCII space characters, which no input of interest
contains). -/
def jsWhitespace (c : Char) : Bool :=
  c = ' ' ∨ c = '\t' ∨ c = '\n' ∨ c = '\r' ∨ c = '\x0b' ∨ c = '\x0c'

/-- JS `String.prototype.trim` over a character list. -/
def trimChars (cs : List Char) : List Char :=
  ((cs.dropWhile jsWhitespace).reverse.dropWhile jsWhitespace).reverse

/-- JS `s.split('\n')`: splits on every newline, keeping empty
segments; the empty string yields one empty segment. -/
def splitOnNl : List Char → List (List Char)
  | [] => [[]]
  | c :: cs =>
    let r := splitOnNl cs
    if c = '\n' then [] :: r
    else
      match r with
      | h :: t => (c :: h) :: t
      | [] => [[c]]

def toUpperChars (cs : List Char) : List Char := cs.map Char.toUpper

/-- The alternatives of the section-header regex
`^(ROLE|OBJECTIVE|CONSTRAINTS?|OUTPUT FORMAT|TONE & STYLE|KEYWORD STRATEGY|EEAT REQUIREMENTS|CONTENT STRUCTURE|CONTEXT|STAKEHOLDERS|SUCCESS CRITERIA|SUGGESTED_ROLE):?$`
(with `CONSTRAINTS?` expanded to its two alternatives). -/
def sectionHeaderNames : List (List Char) :=
  ["ROLE".data, "OBJECTIVE".data, "CONSTRAINTS".data, "CONSTRAINT".data,
   "OUTPUT FORMAT".data, "TONE & STYLE".data, "KEYWORD STRATEGY".data,
   "EEAT REQUIREMENTS".data, "CONTENT STRUCTURE".data, "CONTEXT".data,
   "STAKEHOLDERS".data, "SUCCESS CRITERIA".data, "SUGGESTED_ROLE".data]

/-- Whether a trimmed line matches the anchored, case-insensitive
section-header regex: one of the recognized labels, optionally followed
by a colon. -/
def isHeaderLine (t : List Char) : Bool :=
  sectionHeaderNames.any (fun h => toUpperChars t == h || toUpperChars t == h ++ [':'])

/-- JS `s.replace(':', '')`: removes the first colon, if any. -/
def removeFirstColon : List Char → List Char
  | [] => []
  | c :: cs => if c = ':' then cs else c :: removeFirstColon cs

/-- `trimmed.replace(':', '').toUpperCase()`: the canonical section
name under which a header line's section is stored. -/
def canonicalHeader (t : List Char) : List Char :=
  toUpperChars (removeFirstColon t)

/-- The `sections` record: insertion-ordered association list from
canonical section name to accumulated (trimmed) lines. -/
abbrev Sections := List (List Char × List (List Char))

/-- `sections[name] = []`: (re)sets the named section to empty. -/
def setSection (secs : Sections) (k : List Char) : Sections :=
  if secs.any (fun p => p.1 == k) then
    secs.map (fun p => if p.1 == k then (p.1, []) else p)
  else secs ++ [(k, [])]

/-- `sections[currentSection].push(trimmed)`. -/
def pushLine (secs : Sections) (k : List Char) (v : List Char) : Sections :=
  secs.map (fun p => if p.1 == k then (p.1, p.2 ++ [v]) else p)

/-- `sections[name]`: `none` models an absent key (JS `undefined`). -/
def getSection (secs : Sections) (k : List Char) : Option (List (List Char)) :=
  (secs.find? (fun p => p.1 == k)).map (fun p => p.2)

/-- The section-scanning loop of `parseEnhancedPrompt`: for each line,
a header line starts (resets) its section; otherwise a non-blank line
is pushed onto the current section when one is active; lines before any
header (current section still the initial empty string) are dropped. -/
def scanLines : List (List Char) → List Char → Sections → Sections
  | [], _, secs => secs
  | line :: rest, cur, secs =>
    let t := trimChars line
    if isHeaderLine t then
      let name := canonicalHeader t
      scanLines rest name (setSection secs name)
    else if !t.isEmpty && !cur.isEmpty then
      scanLines rest cur (pushLine secs cur t)
    else
      scanLines rest cur secs

/-- `rawResponse.trim().split('\n')` fed through the scanning loop. -/
def sectionsOf (s : String) : Sections :=
  scanLines (splitOnNl (trimChars s.data)) [] []

/-- Case-insensitive literal matcher: drops `pat` (compared char by
char, ignoring case) from the front of `cs`. -/
def dropLitCI : List Char → List Char → Option (List Char)
  | [], cs => some cs
  | _ :: _, [] => none
  | p :: ps, c :: cs => if c.toLower = p.toLower then dropLitCI ps cs else none

/-- `\s*`. -/
def dropWs (cs : List Char) : List Char := cs.dropWhile jsWhitespace

/-- `\s*\|\s*`. -/
def expectSep (cs : List Char) : Option (List Char) :=
  match dropWs cs with
  | '|' :: rest => some (dropWs rest)
  | _ => none

/-- JS `\w`: `[A-Za-z0-9_]`. -/
def isWordChar (c : Char) : Bool := c.isAlpha || c.isDigit || c = '_'

/-- JS `[\d.]`. -/
def isDigitOrDot (c : Char) : Bool := c.isDigit || c = '.'

/-- The part of the suggested-role regex after the name capture:
`"?\s*\|\s*category:\s*(\w+)\s*\|\s*confidence:\s*([\d.]+)\s*\|\s*reason:\s*(.+)`
(each quantifier here is greedy with no viable shorter alternative, so
maximal munch is faithful; `.` excludes line terminators).  Returns the
three captures. -/
def matchAfterName (cs0 : List Char) : Option (List Char × List Char × List Char) :=
  let cs := match cs0 with
            | '"' :: rest => rest
            | _ => cs0
  match expectSep cs with
  | none => none
  | some cs =>
  match dropLitCI "category:".data cs with
  | none => none
  | some cs =>
  let cs := dropWs cs
  let cat := cs.takeWhile isWordChar
  if cat.isEmpty then none else
  let cs := cs.drop cat.length
  match expectSep cs with
  | none => none
  | some cs =>
  match dropLitCI "confidence:".data cs with
  | none => none
  | some cs =>
  let cs := dropWs cs
  let conf := cs.takeWhile isDigitOrDot
  if conf.isEmpty then none else
  let cs := cs.drop conf.length
  match expectSep cs with
  | none => none
  | some cs =>
  match dropLitCI "reason:".data cs with
  | none => none
  | some cs =>
  let cs := dropWs cs
  let why := cs.takeWhile (fun c => !(c = '\n' || c = '\r'))
  if why.isEmpty then none else some (cat, conf, why)

/-- Backtracking loop for the greedy name capture `([^"]+)`: `blk` is
the maximal run of non-quote characters, `rest0` what follows it; try
capture lengths from `k` downward (greedy preference) until the rest of
the pattern matches. -/
def nameLoop (blk rest0 : List Char) : Nat → Option (List Char × (List Char × List Char × List Char))
  | 0 => none
  | k + 1 =>
    match matchAfterName (blk.drop (k + 1) ++ rest0) with
    | some r => some (blk.take (k + 1), r)
    | none => nameLoop blk rest0 k

/-- One anchored attempt of the suggested-role regex
`name:\s*"?([^"]+)"?\s*\|\s*category:\s*(\w+)\s*\|\s*confidence:\s*([\d.]+)\s*\|\s*reason:\s*(.+)`
(flag `i`) at the start of `cs`.  Returns the four captures
(name, category, confidence, reason). -/
def tryMatchAt (cs : List Char) : Option (List Char × List Char × List Char × List Char) :=
  match dropLitCI "name:".data cs with
  | none => none
  | some cs =>
    let cs := dropWs cs
    let cs := match cs with
              | '"' :: rest => rest
              | _ => cs
    let blk := cs.takeWhile (fun c => c ≠ '"')
    let rest0 := cs.drop blk.length
    match nameLoop blk rest0 blk.length with
    | some (nm, (cat, conf, why)) => some (nm, cat, conf, why)
    | none => none

/-- Leftmost-match search of the suggested-role regex (JS
`String.prototype.match` without the `g` flag). -/
def findRoleMatch : List Char → Option (List Char × List Char × List Char × List Char)
  | [] => none
  | c :: cs =>
    match tryMatchAt (c :: cs) with
    | some r => some r
    | none => findRoleMatch cs

/-- Value of a digit run, most significant first. -/
def digitsVal (cs : List Char) : Nat :=
  cs.foldl (fun acc c => acc * 10 + (c.toNat - '0'.toNat)) 0

/-- JS `parseFloat` restricted to inputs drawn from `[\d.]+` (all the
regex can capture): integer digits, then an optional dot and fraction
digits; anything after a second dot is ignored; a dot with no digits at
all gives `NaN`, modelled as `none`. -/
def parseFloatQ (cs : List Char) : Option ℚ :=
  let intPart := cs.takeWhile Char.isDigit
  match cs.drop intPart.length with
  | '.' :: rest =>
    let fracPart := rest.takeWhile Char.isDigit
    if intPart.isEmpty && fracPart.isEmpty then none
    else some ((digitsVal intPart : ℚ) + (digitsVal fracPart : ℚ) / (10 : ℚ) ^ fracPart.length)
  | _ => if intPart.isEmpty then none else some (digitsVal intPart : ℚ)

/-- JS `s || d` for strings. -/
def jsOrEmpty (s d : String) : String := if s = "" then d else s

/-- JS `Array.prototype.join(sep)` for a single-character separator. -/
def joinChars (sep : Char) : List (List Char) → List Char
  | [] => []
  | [x] => x
  | x :: y :: rest => x ++ sep :: joinChars sep (y :: rest)

/-- Suggested-role extraction: when the SUGGESTED_ROLE section exists
and is non-empty, its lines are joined with spaces and matched against
the suggested-role regex; a match builds the record (name and reason
trimmed, category lower-cased with the vacuous `|| 'other'` fallback,
confidence via `parseFloat`); no match (or no section) yields nothing.
The surrounding try/catch never fires: every operation involved is
total. -/
def parseSuggestedRole (secs : Sections) : Option SuggestedRole :=
  match getSection secs "SUGGESTED_ROLE".data with
  | some (l :: ls) =>
    let text := joinChars ' ' (l :: ls)
    match findRoleMatch text with
    | some (nm, cat, conf, why) =>
      some { name := String.mk (trimChars nm)
             description := String.mk (trimChars why)
             category := jsOrEmpty (String.mk (cat.map Char.toLower)) "other"
             confidence := parseFloatQ conf
             reason := String.mk (trimChars why) }
    | none => none
  | _ => none

/-- Index of the leftmost case-insensitive occurrence of `pat`. -/
def findCIIdx (pat : List Char) : List Char → Option Nat
  | [] => if pat.isEmpty then some 0 else none
  | c :: cs =>
    if (dropLitCI pat (c :: cs)).isSome then some 0
    else
      match findCIIdx pat cs with
      | some i => some (i + 1)
      | none => none

/-- Length consumed by the lazy `[\s\S]*?` before the lookahead
`(?=\n\n|$)` first holds: stop at the first position followed by two
newlines, or at the end of input. -/
def lazyExtent : List Char → Nat
  | [] => 0
  | '\n' :: '\n' :: _ => 0
  | _ :: rest => 1 + lazyExtent rest

/-- `rawResponse.replace(/SUGGESTED_ROLE:[\s\S]*?(?=\n\n|$)/i, '').trim()`:
remove the first (leftmost, case-insensitive) `SUGGESTED_ROLE:` and the
lazily-minimal run of following characters up to a blank line or the
end, then trim. -/
def stripSuggestedBlock (s : String) : String :=
  match findCIIdx "SUGGESTED_ROLE:".data s.data with
  | none => String.mk (trimChars s.data)
  | some i =>
    let after := s.data.drop (i + "SUGGESTED_ROLE:".data.length)
    String.mk (trimChars (s.data.take i ++ after.drop (lazyExtent after)))

/-- The keys collected, in this fixed order, into the constraints list. -/
def constraintSectionKeys : List (List Char) :=
  ["CONSTRAINTS".data, "CONSTRAINT".data, "TONE & STYLE".data,
   "KEYWORD STRATEGY".data, "EEAT REQUIREMENTS".data, "CONTENT STRUCTURE".data,
   "CONTEXT".data, "STAKEHOLDERS".data, "SUCCESS CRITERIA".data]

/-- `PromptEnhancer.parseEnhancedPrompt` (the `_roleId` parameter is
unused in the source and dropped).  Total by construction: every input
yields an `EnhancedPrompt`. -/
def parseEnhancedPrompt (rawResponse : String) : EnhancedPrompt :=
  let secs := sectionsOf rawResponse
  { role := String.mk (joinChars ' ' ((getSection secs "ROLE".data).getD []))
    objective := String.mk (joinChars ' ' ((getSection secs "OBJECTIVE".data).getD []))
    constraints := (constraintSectionKeys.foldl
      (fun acc k => acc ++ ((getSection secs k).getD [])) []).map String.mk
    outputFormat := String.mk (joinChars '\n' ((getSection secs "OUTPUT FORMAT".data).getD []))
    fullText := stripSuggestedBlock rawResponse
    suggestedRole := parseSuggestedRole secs }


/-! Concrete fixtures used by witnesses and counterexamples. -/

/-- The usage/persist update applied to the persisted stats on the
success path of `makeRequest`. -/
def usageUpd (env : Env) (params : ChatCompletionParams) (c : OpenAIConfig)
    (usg : Option Usage) (stats : UsageStats) : UsageStats :=
  match usg with
  | some u =>
    if env.persistOk then
      trackUsage u.prompt_tokens u.completion_tokens
        (jsOrStr params.model c.model) env.currentMonth stats
    else stats
  | none => stats

def testConfig : OpenAIConfig := ⟨"sk-test", "gpt-4o-mini", 1, 800⟩

def testStats : UsageStats := ⟨0, 0, 0, "2026-10"⟩

def testEnv : Env := ⟨some "sk-test", "gpt-4o-mini", 1, 800, true, "2026-10"⟩

def testEnvNoKey : Env := ⟨none, "gpt-4o-mini", 1, 800, true, "2026-10"⟩

def testState : ClientState := ⟨some testConfig, 0, 0, testStats⟩

def testParams : ChatCompletionParams := ⟨[⟨"user", "hi"⟩], none, none, none⟩

/-- C7 input. -/
def inputC7 : String :=
  "ROLE:\nSenior engineer\nOBJECTIVE:\nFix the bug\nCONSTRAINTS:\nMust be deterministic\nOUTPUT FORMAT:\nBullet list"

/-- C6 inputs. -/
def inputC6 : String :=
  "ROLE:\nData wrangler\n\nSUGGESTED_ROLE:\nname: \"Data Analyst\" | category: research | confidence: 0.72 | reason: better fit"

def inputC6bad : String :=
  "ROLE:\nData wrangler\nSUGGESTED_ROLE:\nnothing useful here"

theorem makeRequest_limited (env : Env) (clock : Nat → Int) (net : Nat → FetchResult)
    (params : ChatCompletionParams) (fuel : Nat) (c : OpenAIConfig) (n : Nat) (last : Int)
    (stats : UsageStats) (r : Nat) (now : Int)
    (hclock : clock r = now)
    (hn : MAX_REQUESTS_PER_MINUTE ≤ (if now - last > 60000 then 0 else n)) :
    makeRequest env clock net params (fuel + 1) ⟨some c, n, last, stats⟩ r
      = ⟨.error ⟨.API_RATE_LIMIT, "Rate limit exceeded"⟩, ⟨some c, n, last, stats⟩, 0, []⟩ := by
  subst hclock
  simp only [makeRequest, checkRateLimit]
  rw [if_pos (by omega : (if clock r - last > 60000 then 0 else n) ≥ MAX_REQUESTS_PER_MINUTE)]

theorem makeRequest_429_retry (env : Env) (clock : Nat → Int) (net : Nat → FetchResult)
    (params : ChatCompletionParams) (fuel : Nat) (c : OpenAIConfig) (n : Nat) (last : Int)
    (stats : UsageStats) (r : Nat) (body : ResponseBody) (now : Int)
    (hclock : clock r = now)
    (hr : r < MAX_RETRIES)
    (hn : (if now - last > 60000 then 0 else n) < MAX_REQUESTS_PER_MINUTE)
    (hnet : net r = .response 429 body) :
    makeRequest env clock net params (fuel + 1) ⟨some c, n, last, stats⟩ r
      = (let rest := makeRequest env clock net params fuel
           ⟨some c, (if now - last > 60000 then 0 else n) + 1, now, stats⟩ (r + 1)
         ⟨rest.result, rest.state, 1 + rest.networkAttempts, 2 ^ r * 1000 :: rest.delays⟩) := by
  subst hclock
  simp only [makeRequest, checkRateLimit, hnet]
  rw [if_neg (by omega : ¬ (if clock r - last > 60000 then 0 else n) ≥ MAX_REQUESTS_PER_MINUTE)]
  simp only [if_pos hr]
  norm_num

theorem makeRequest_429_stop (env : Env) (clock : Nat → Int) (net : Nat → FetchResult)
    (params : ChatCompletionParams) (fuel : Nat) (c : OpenAIConfig) (n : Nat) (last : Int)
    (stats : UsageStats) (r : Nat) (body : ResponseBody) (now : Int)
    (hclock : clock r = now)
    (hr : ¬ r < MAX_RETRIES)
    (hn : (if now - last > 60000 then 0 else n) < MAX_REQUESTS_PER_MINUTE)
    (hnet : net r = .response 429 body) :
    makeRequest env clock net params (fuel + 1) ⟨some c, n, last, stats⟩ r
      = ⟨.error ⟨.API_RATE_LIMIT, "Rate limited by OpenAI"⟩,
         ⟨some c, (if now - last > 60000 then 0 else n) + 1, now, stats⟩, 1, []⟩ := by
  subst hclock
  simp only [makeRequest, checkRateLimit, hnet]
  rw [if_neg (by omega : ¬ (if clock r - last > 60000 then 0 else n) ≥ MAX_REQUESTS_PER_MINUTE)]
  simp only [if_neg hr]
  norm_num

theorem makeRequest_timeout (env : Env) (clock : Nat → Int) (net : Nat → FetchResult)
    (params : ChatCompletionParams) (fuel : Nat) (c : OpenAIConfig) (n : Nat) (last : Int)
    (stats : UsageStats) (r : Nat) (now : Int)
    (hclock : clock r = now)
    (hn : (if now - last > 60000 then 0 else n) < MAX_REQUESTS_PER_MINUTE)
    (hnet : net r = .timeout) :
    makeRequest env clock net params (fuel + 1) ⟨some c, n, last, stats⟩ r
      = ⟨.error ⟨.API_NETWORK_ERROR, "Request timeout"⟩,
         ⟨some c, (if now - last > 60000 then 0 else n) + 1, now, stats⟩, 1, []⟩ := by
  subst hclock
  simp only [makeRequest, checkRateLimit, hnet]
  rw [if_neg (by omega : ¬ (if clock r - last > 60000 then 0 else n) ≥ MAX_REQUESTS_PER_MINUTE)]


theorem makeRequest_success (env : Env) (clock : Nat → Int) (net : Nat → FetchResult)
    (params : ChatCompletionParams) (fuel : Nat) (c : OpenAIConfig) (n : Nat) (last : Int)
    (stats : UsageStats) (r : Nat) (em : Option String) (s : String) (usg : Option Usage)
    (now : Int)
    (hclock : clock r = now)
    (hs : s ≠ "")
    (hn : (if now - last > 60000 then 0 else n) < MAX_REQUESTS_PER_MINUTE)
    (hnet : net r = .response 200 ⟨em, some s, usg⟩) :
    makeRequest env clock net params (fuel + 1) ⟨some c, n, last, stats⟩ r
      = ⟨.ok s,
         ⟨some c, (if now - last > 60000 then 0 else n) + 1, now,
          usageUpd env params c usg stats⟩, 1, []⟩ := by
  subst hclock
  simp only [makeRequest, checkRateLimit, hnet]
  rw [if_neg (by omega : ¬ (if clock r - last > 60000 then 0 else n) ≥ MAX_REQUESTS_PER_MINUTE)]
  simp only [isFalsyStr, decide_eq_true_eq, if_neg hs, usageUpd]
  norm_num [hs]
  cases usg
  · rfl
  · simp only []
    split <;> rfl

theorem makeRequest_noKey (env : Env) (clock : Nat → Int) (net : Nat → FetchResult)
    (params : ChatCompletionParams) (fuel : Nat) (n : Nat) (last : Int)
    (stats : UsageStats) (r : Nat)
    (hkey : env.storedApiKey = none) :
    makeRequest env clock net params (fuel + 1) ⟨none, n, last, stats⟩ r
      = ⟨.error ⟨.API_KEY_MISSING, "API key not found"⟩, ⟨none, n, last, stats⟩, 0, []⟩ := by
  simp only [makeRequest, initConfig, hkey]

theorem run429 (env : Env) (params : ChatCompletionParams) (c : OpenAIConfig)
    (n : Nat) (last t : Int) (stats : UsageStats) (body : ResponseBody)
    (hc : (if t - last > 60000 then 0 else n) + 4 ≤ MAX_REQUESTS_PER_MINUTE) :
    chatCompletion env (fun _ => t) (fun _ => .response 429 body) params ⟨some c, n, last, stats⟩
      = ⟨.error ⟨.API_RATE_LIMIT, "Rate limited by OpenAI"⟩,
         ⟨some c, (if t - last > 60000 then 0 else n) + 4, t, stats⟩, 4, [1000, 2000, 4000]⟩ := by
  have u1 : chatCompletion env (fun _ => t) (fun _ => .response 429 body) params
      ⟨some c, n, last, stats⟩
      = makeRequest env (fun _ => t) (fun _ => .response 429 body) params 4
          ⟨some c, n, last, stats⟩ 0 := rfl
  have l0 := makeRequest_429_retry env (fun _ => t) (fun _ => .response 429 body) params 3 c
    n last stats 0 body t rfl (by decide) (by omega) rfl
  have l1 := makeRequest_429_retry env (fun _ => t) (fun _ => .response 429 body) params 2 c
    ((if t - last > 60000 then 0 else n) + 1) t stats 1 body t rfl (by decide)
    (by simp only [gt_iff_lt] at hc ⊢; simp only [sub_self]; norm_num; omega) rfl
  have l2 := makeRequest_429_retry env (fun _ => t) (fun _ => .response 429 body) params 1 c
    ((if t - t > 60000 then 0 else (if t - last > 60000 then 0 else n) + 1) + 1) t stats 2 body
    t rfl (by decide) (by simp only [gt_iff_lt] at hc ⊢; simp only [sub_self]; norm_num; omega) rfl
  have l3 := makeRequest_429_stop env (fun _ => t) (fun _ => .response 429 body) params 0 c
    ((if t - t > 60000 then 0 else
        (if t - t > 60000 then 0 else (if t - last > 60000 then 0 else n) + 1) + 1) + 1)
    t stats 3 body t rfl (by decide) (by simp only [gt_iff_lt] at hc ⊢; simp only [sub_self]; norm_num; omega) rfl
  simp only [Nat.reduceAdd] at l0 l1 l2 l3
  rw [u1, l0, l1, l2, l3]
  simp only [sub_self]
  norm_num

theorem rangeMapShift (r m : Nat) :
    (List.range (m + 1)).map (fun i => 2 ^ (r + i) * 1000)
      = 2 ^ r * 1000 :: (List.range m).map (fun i => 2 ^ (r + 1 + i) * 1000) := by
  rw [List.range_succ_eq_map, List.map_cons, List.map_map]
  refine congrArg₂ _ (by norm_num) ?_
  refine List.map_congr_left ?_
  intro a _
  have : r + (a + 1) = r + 1 + a := by omega
  simp [Function.comp, Nat.succ_eq_add_one, this]

theorem delays_shape (env : Env) (clock : Nat → Int) (net : Nat → FetchResult)
    (params : ChatCompletionParams) :
    ∀ fuel st r, ∃ n, (makeRequest env clock net params fuel st r).delays
        = (List.range n).map (fun i => 2 ^ (r + i) * 1000) ∧ (n = 0 ∨ r + n ≤ MAX_RETRIES) := by
  intro fuel
  induction fuel with
  | zero =>
    intro st r
    exact ⟨0, by simp [makeRequest], Or.inl rfl⟩
  | succ fuel ih =>
    intro st r
    have hz : ∀ (res : Except PromptLayerError String) (stx : ClientState) (k : Nat),
        ∃ n, (ReqResult.mk res stx k []).delays
            = (List.range n).map (fun i => 2 ^ (r + i) * 1000) ∧ (n = 0 ∨ r + n ≤ MAX_RETRIES) :=
      fun res stx k => ⟨0, by simp, Or.inl rfl⟩
    have hretry : ∀ (st2 : ClientState), r < MAX_RETRIES →
        ∃ n, (ReqResult.mk (makeRequest env clock net params fuel st2 (r + 1)).result
                (makeRequest env clock net params fuel st2 (r + 1)).state
                (1 + (makeRequest env clock net params fuel st2 (r + 1)).networkAttempts)
                (2 ^ r * 1000 :: (makeRequest env clock net params fuel st2 (r + 1)).delays)).delays
              = (List.range n).map (fun i => 2 ^ (r + i) * 1000)
            ∧ (n = 0 ∨ r + n ≤ MAX_RETRIES) := by
      intro st2 hr
      obtain ⟨m, hm, hb⟩ := ih st2 (r + 1)
      refine ⟨m + 1, ?_, ?_⟩
      · simp only [rangeMapShift]
        simp [hm]
      · have h3 : MAX_RETRIES = 3 := rfl
        right
        omega
    simp only [makeRequest]
    split
    · exact hz _ _ _
    split
    · exact hz _ _ _
    split
    · exact hz _ _ _
    split
    · exact hz _ _ _
    · split_ifs with hr
      · exact hretry _ hr
      · exact hz _ _ _
    · split_ifs <;> first | exact hretry _ (by assumption) | exact hz _ _ _

/-- C1, counterexample.  The claim states that a timed-out attempt is
retried internally like other network failures, NetworkTimeout being
surfaced only after the retry ceiling is exhausted (MAX_RETRIES + 1 = 4
attempts).  On a concrete run whose every network attempt times out,
`complete()` performs exactly one network attempt, waits no backoff
delay, and surfaces the timeout error immediately: `fetchWithTimeout`
wraps the abort in a `PromptLayerError`, which `makeRequest`'s catch
rethrows without retrying. -/
theorem claim_C1_counterexample :
    chatCompletion ⟨some "sk-test", "gpt-4o-mini", 1, 800, true, "2026-10"⟩ (fun _ => 0)
        (fun _ => .timeout) ⟨[⟨"user", "hi"⟩], none, none, none⟩
        ⟨some ⟨"sk-test", "gpt-4o-mini", 1, 800⟩, 0, 0, ⟨0, 0, 0, "2026-10"⟩⟩
      = ⟨.error ⟨.API_NETWORK_ERROR, "Request timeout"⟩,
         ⟨some ⟨"sk-test", "gpt-4o-mini", 1, 800⟩, 1, 0, ⟨0, 0, 0, "2026-10"⟩⟩, 1, []⟩
    ∧ (1 : Nat) ≠ MAX_RETRIES + 1 := by
  constructor
  · decide
  · decide

/-- C1, amended claim: for every complete() call whose first network
attempt ends in the 30-second hard timeout firing, the client surfaces
NetworkTimeout (API_NETWORK_ERROR, "Request timeout") immediately after
that single attempt, with no internal retry and no backoff delay; the
retry/backoff policy applies only to HTTP 429 responses and to network
failures not already classified as PromptLayerError. -/
theorem claim_C1_amended (env : Env) (params : ChatCompletionParams) (c : OpenAIConfig)
    (n : Nat) (last t : Int) (stats : UsageStats) (net : Nat → FetchResult)
    (hnet : net 0 = .timeout)
    (hn : (if t - last > 60000 then 0 else n) < MAX_REQUESTS_PER_MINUTE) :
    chatCompletion env (fun _ => t) net params ⟨some c, n, last, stats⟩
      = ⟨.error ⟨.API_NETWORK_ERROR, "Request timeout"⟩,
         ⟨some c, (if t - last > 60000 then 0 else n) + 1, t, stats⟩, 1, []⟩ := by
  have u1 : chatCompletion env (fun _ => t) net params ⟨some c, n, last, stats⟩
      = makeRequest env (fun _ => t) net params (3 + 1) ⟨some c, n, last, stats⟩ 0 := rfl
  rw [u1, makeRequest_timeout env (fun _ => t) net params 3 c n last stats 0 t rfl hn hnet]

/-- C2: for every complete() call in which every network attempt
returns HTTP 429 (and the local rate ceiling leaves room for the whole
sequence), the call fails with RemoteRateLimited ("Rate limited by
OpenAI") after exactly MAX_RETRIES + 1 = 4 network attempts, with
exponentially growing delays of 1000, 2000 and 4000 ms before the three
retries. -/
theorem claim_C2 (env : Env) (params : ChatCompletionParams) (c : OpenAIConfig)
    (n : Nat) (last t : Int) (stats : UsageStats) (body : ResponseBody)
    (hc : (if t - last > 60000 then 0 else n) + (MAX_RETRIES + 1) ≤ MAX_REQUESTS_PER_MINUTE) :
    chatCompletion env (fun _ => t) (fun _ => .response 429 body) params ⟨some c, n, last, stats⟩
      = ⟨.error ⟨.API_RATE_LIMIT, "Rate limited by OpenAI"⟩,
         ⟨some c, (if t - last > 60000 then 0 else n) + (MAX_RETRIES + 1), t, stats⟩,
         MAX_RETRIES + 1, [1000, 2000, 4000]⟩ := by
  have h4 : MAX_RETRIES + 1 = 4 := rfl
  rw [h4] at hc ⊢
  exact run429 env params c n last t stats body hc

/-- C3: for every complete() call made while no credential is
configured (config is null) and none can be loaded from persisted
settings, the call fails with CredentialMissing (API_KEY_MISSING) and
performs zero network attempts, leaving the client state unchanged. -/
theorem claim_C3 (env : Env) (clock : Nat → Int) (net : Nat → FetchResult)
    (params : ChatCompletionParams) (n : Nat) (last : Int) (stats : UsageStats)
    (hkey : env.storedApiKey = none) :
    chatCompletion env clock net params ⟨none, n, last, stats⟩
      = ⟨.error ⟨.API_KEY_MISSING, "API key not found"⟩, ⟨none, n, last, stats⟩, 0, []⟩ := by
  have u1 : chatCompletion env clock net params ⟨none, n, last, stats⟩
      = makeRequest env clock net params (3 + 1) ⟨none, n, last, stats⟩ 0 := rfl
  rw [u1, makeRequest_noKey env clock net params 3 n last stats 0 hkey]

/-- C4: for every complete() call that returns successfully, the
usage record is updated: total tokens consumed increase by the
response's prompt plus completion token counts, and cumulative and
monthly cost increase by those counts multiplied by the per-model price
table entry of the effective model (an unrecognized model falls back to
the default gpt-4o-mini tier); and when persisting the update fails,
the stats are left unchanged while the call still succeeds with the
same content. -/
theorem claim_C4 (env : Env) (params : ChatCompletionParams) (c : OpenAIConfig)
    (n : Nat) (last t : Int) (stats : UsageStats) (em : Option String) (s : String)
    (u : Usage) (net : Nat → FetchResult)
    (hnet : net 0 = .response 200 ⟨em, some s, some u⟩)
    (hs : s ≠ "")
    (hn : (if t - last > 60000 then 0 else n) < MAX_REQUESTS_PER_MINUTE)
    (hmonth : stats.currentMonth = env.currentMonth) :
    ((chatCompletion env (fun _ => t) net params ⟨some c, n, last, stats⟩).result = .ok s
     ∧ (chatCompletion env (fun _ => t) net params ⟨some c, n, last, stats⟩).networkAttempts = 1)
    ∧ (env.persistOk = true →
        ((chatCompletion env (fun _ => t) net params ⟨some c, n, last, stats⟩).state.stats.totalTokensUsed
            = stats.totalTokensUsed + u.prompt_tokens + u.completion_tokens
         ∧ (chatCompletion env (fun _ => t) net params ⟨some c, n, last, stats⟩).state.stats.totalCostUSD
            = stats.totalCostUSD
              + ((u.prompt_tokens : ℚ) / 1000000 * (pricingFor (jsOrStr params.model c.model)).input
                 + (u.completion_tokens : ℚ) / 1000000 * (pricingFor (jsOrStr params.model c.model)).output)
         ∧ (chatCompletion env (fun _ => t) net params ⟨some c, n, last, stats⟩).state.stats.monthlyCostUSD
            = stats.monthlyCostUSD
              + ((u.prompt_tokens : ℚ) / 1000000 * (pricingFor (jsOrStr params.model c.model)).input
                 + (u.completion_tokens : ℚ) / 1000000 * (pricingFor (jsOrStr params.model c.model)).output)
         ∧ (chatCompletion env (fun _ => t) net params ⟨some c, n, last, stats⟩).state.stats.currentMonth
            = env.currentMonth))
    ∧ (env.persistOk = false →
        (chatCompletion env (fun _ => t) net params ⟨some c, n, last, stats⟩).state.stats = stats)
    ∧ (∀ m : String, m ∉ ["gpt-4o-mini", "gpt-4o", "gpt-4", "gpt-3.5-turbo"] →
        pricingFor m = pricingFor "gpt-4o-mini") := by
  have u1 : chatCompletion env (fun _ => t) net params ⟨some c, n, last, stats⟩
      = makeRequest env (fun _ => t) net params (3 + 1) ⟨some c, n, last, stats⟩ 0 := rfl
  have key : chatCompletion env (fun _ => t) net params ⟨some c, n, last, stats⟩
      = ⟨.ok s, ⟨some c, (if t - last > 60000 then 0 else n) + 1, t,
         usageUpd env params c (some u) stats⟩, 1, []⟩ := by
    rw [u1, makeRequest_success env (fun _ => t) net params 3 c n last stats 0 em s (some u) t
          rfl hs hn hnet]
  refine ⟨⟨by rw [key], by rw [key]⟩, ?_, ?_, ?_⟩
  · intro hp
    rw [key]
    simp only [usageUpd, hp, if_true, trackUsage, hmonth]
    norm_num
  · intro hp
    rw [key]
    simp only [usageUpd, hp, Bool.false_eq_true, if_false]
  · intro m hm
    simp only [List.mem_cons, List.mem_singleton, not_or] at hm
    obtain ⟨h1, h2, h3, h4, -⟩ := hm
    simp [pricingFor, PRICING, h1, h2, h3, h4]

/-- C5: trackUsage never mixes two calendar months in the monthly
cost: the stored month always becomes the current month of the update;
when the current month differs from the stored one the monthly cost is
zeroed exactly once before the new cost is added (so afterwards it
equals exactly the new cost), and within the same month the new cost
accumulates onto the previous monthly cost. -/
theorem claim_C5 (stats : UsageStats) (month m : String) (p cmpl : Nat) :
    ((trackUsage p cmpl m month stats).currentMonth = month)
    ∧ (stats.currentMonth ≠ month →
        (trackUsage p cmpl m month stats).monthlyCostUSD
          = (p : ℚ) / 1000000 * (pricingFor m).input
            + (cmpl : ℚ) / 1000000 * (pricingFor m).output)
    ∧ (stats.currentMonth = month →
        (trackUsage p cmpl m month stats).monthlyCostUSD
          = stats.monthlyCostUSD
            + ((p : ℚ) / 1000000 * (pricingFor m).input
               + (cmpl : ℚ) / 1000000 * (pricingFor m).output)) := by
  refine ⟨rfl, ?_, ?_⟩
  · intro h
    simp only [trackUsage, ne_eq, h, not_false_eq_true, if_true]
    norm_num
  · intro h
    simp only [trackUsage, ne_eq, h, not_true_eq_false, if_false]

/-- C9: within one complete() call, the delay before the k-th retry
equals 2^(k-1) seconds (2^retryCount * 1000 ms): the list of awaited
delays is an initial segment (of length at most MAX_RETRIES) of
[1000, 2000, 4000, ...], hence non-decreasing with each delay at least
double the previous one. -/
theorem claim_C9 (env : Env) (clock : Nat → Int) (net : Nat → FetchResult)
    (params : ChatCompletionParams) (st : ClientState) :
    ∃ n, n ≤ MAX_RETRIES
      ∧ (chatCompletion env clock net params st).delays
          = (List.range n).map (fun i => 2 ^ i * 1000)
      ∧ List.Chain' (fun a b => a ≤ b ∧ a + a ≤ b)
          ((chatCompletion env clock net params st).delays) := by
  obtain ⟨n, hd, hb⟩ := delays_shape env clock net params (MAX_RETRIES + 1) st 0
  have h3 : MAX_RETRIES = 3 := rfl
  have hn : n ≤ MAX_RETRIES := by rcases hb with h | h <;> omega
  have hd' : (chatCompletion env clock net params st).delays
      = (List.range n).map (fun i => 2 ^ i * 1000) := by
    rw [show chatCompletion env clock net params st
          = makeRequest env clock net params (MAX_RETRIES + 1) st 0 from rfl, hd]
    simp
  refine ⟨n, hn, hd', ?_⟩
  rw [hd']
  rw [h3] at hn
  interval_cases n <;> norm_num [List.range_succ]

/-- C10: every network attempt, including each internal retry,
passes through the local rate-limit check and increments the shared
per-minute counter: starting two slots below the ceiling, an all-429
run fails with the local rate-limit error ("Rate limit exceeded") in
the middle of the retry sequence after two network attempts, the
counter having reached the ceiling; and starting from a fresh counter,
a single call consumes MAX_RETRIES + 1 = 4 slots. -/
theorem claim_C10 (env : Env) (params : ChatCompletionParams) (c : OpenAIConfig)
    (last t : Int) (stats : UsageStats) (body : ResponseBody)
    (hno : ¬ t - last > 60000) :
    chatCompletion env (fun _ => t) (fun _ => .response 429 body) params
        ⟨some c, MAX_REQUESTS_PER_MINUTE - 2, last, stats⟩
      = ⟨.error ⟨.API_RATE_LIMIT, "Rate limit exceeded"⟩,
         ⟨some c, MAX_REQUESTS_PER_MINUTE, t, stats⟩, 2, [1000, 2000]⟩
    ∧ chatCompletion env (fun _ => t) (fun _ => .response 429 body) params
        ⟨some c, 0, t, stats⟩
      = ⟨.error ⟨.API_RATE_LIMIT, "Rate limited by OpenAI"⟩,
         ⟨some c, MAX_RETRIES + 1, t, stats⟩, MAX_RETRIES + 1, [1000, 2000, 4000]⟩ := by
  have hM : MAX_REQUESTS_PER_MINUTE = 50 := rfl
  have h3 : MAX_RETRIES + 1 = 4 := rfl
  rw [hM, h3]
  norm_num
  constructor
  · have u1 : chatCompletion env (fun _ => t) (fun _ => .response 429 body) params
        ⟨some c, 48, last, stats⟩
        = makeRequest env (fun _ => t) (fun _ => .response 429 body) params 4
            ⟨some c, 48, last, stats⟩ 0 := rfl
    have l0 := makeRequest_429_retry env (fun _ => t) (fun _ => .response 429 body) params 3 c
      48 last stats 0 body t rfl (by decide) (by rw [if_neg hno]; decide) rfl
    rw [if_neg hno] at l0
    simp only [Nat.reduceAdd] at l0
    have l1 := makeRequest_429_retry env (fun _ => t) (fun _ => .response 429 body) params 2 c
      49 t stats 1 body t rfl (by decide) (by simp only [sub_self]; decide) rfl
    simp only [sub_self] at l1
    norm_num at l1
    have l2 := makeRequest_limited env (fun _ => t) (fun _ => .response 429 body) params 1 c
      50 t stats 2 t rfl (by simp only [sub_self]; decide)
    rw [u1, l0, l1, l2]
    norm_num
  · have h := run429 env params c 0 t t stats body (by simp only [sub_self]; decide)
    simpa using h


/-- Witness for the amended C1 at a concrete input. -/
theorem claim_C1_amended_witness :
    ((fun (_ : Nat) => FetchResult.timeout) 0 = .timeout
     ∧ (if (0 : Int) - 0 > 60000 then 0 else 0) < MAX_REQUESTS_PER_MINUTE)
    ∧ chatCompletion testEnv (fun _ => 0) (fun _ => .timeout) testParams testState
      = ⟨.error ⟨.API_NETWORK_ERROR, "Request timeout"⟩, ⟨some testConfig, 1, 0, testStats⟩, 1, []⟩ :=
  ⟨⟨rfl, by decide⟩, by
    have h := claim_C1_amended testEnv testParams testConfig 0 0 0 testStats
      (fun _ => .timeout) rfl (by decide)
    exact h.trans (by decide)⟩

/-- Witness for C2 at a concrete input. -/
theorem claim_C2_witness :
    ((if (0 : Int) - 0 > 60000 then 0 else 0) + (MAX_RETRIES + 1) ≤ MAX_REQUESTS_PER_MINUTE)
    ∧ chatCompletion testEnv (fun _ => 0) (fun _ => .response 429 ⟨none, none, none⟩)
        testParams testState
      = ⟨.error ⟨.API_RATE_LIMIT, "Rate limited by OpenAI"⟩,
         ⟨some testConfig, 4, 0, testStats⟩, 4, [1000, 2000, 4000]⟩ :=
  ⟨by decide, by
    have h := claim_C2 testEnv testParams testConfig 0 0 0 testStats ⟨none, none, none⟩ (by decide)
    exact h.trans (by decide)⟩

/-- Witness for C3 at a concrete input. -/
theorem claim_C3_witness :
    testEnvNoKey.storedApiKey = none
    ∧ chatCompletion testEnvNoKey (fun _ => 0) (fun _ => .timeout) testParams
        ⟨none, 0, 0, testStats⟩
      = ⟨.error ⟨.API_KEY_MISSING, "API key not found"⟩, ⟨none, 0, 0, testStats⟩, 0, []⟩ :=
  ⟨rfl, claim_C3 testEnvNoKey (fun _ => 0) (fun _ => .timeout) testParams 0 0 testStats rfl⟩

/-- Witness for C4 at a concrete input. -/
theorem claim_C4_witness :
    ((fun (_ : Nat) => FetchResult.response 200 ⟨none, some "enhanced", some ⟨1000000, 2000000⟩⟩) 0
        = .response 200 ⟨none, some "enhanced", some ⟨1000000, 2000000⟩⟩
     ∧ "enhanced" ≠ ""
     ∧ (if (0 : Int) - 0 > 60000 then 0 else 0) < MAX_REQUESTS_PER_MINUTE
     ∧ testStats.currentMonth = testEnv.currentMonth)
    ∧ (chatCompletion testEnv (fun _ => 0)
        (fun _ => .response 200 ⟨none, some "enhanced", some ⟨1000000, 2000000⟩⟩)
        testParams testState).result = .ok "enhanced"
    ∧ (chatCompletion testEnv (fun _ => 0)
        (fun _ => .response 200 ⟨none, some "enhanced", some ⟨1000000, 2000000⟩⟩)
        testParams testState).state.stats.totalTokensUsed = 3000000
    ∧ (chatCompletion testEnv (fun _ => 0)
        (fun _ => .response 200 ⟨none, some "enhanced", some ⟨1000000, 2000000⟩⟩)
        testParams testState).state.stats.totalCostUSD = 27 / 20 :=
  ⟨⟨rfl, by decide, by decide, rfl⟩,
   (claim_C4 testEnv testParams testConfig 0 0 0 testStats none "enhanced" ⟨1000000, 2000000⟩
      (fun _ => .response 200 ⟨none, some "enhanced", some ⟨1000000, 2000000⟩⟩)
      rfl (by decide) (by decide) rfl).1.1,
   by
     have h := ((claim_C4 testEnv testParams testConfig 0 0 0 testStats none "enhanced"
        ⟨1000000, 2000000⟩
        (fun _ => .response 200 ⟨none, some "enhanced", some ⟨1000000, 2000000⟩⟩)
        rfl (by decide) (by decide) rfl).2.1 rfl).1
     exact h.trans (by norm_num [testStats]),
   by
     have h := ((claim_C4 testEnv testParams testConfig 0 0 0 testStats none "enhanced"
        ⟨1000000, 2000000⟩
        (fun _ => .response 200 ⟨none, some "enhanced", some ⟨1000000, 2000000⟩⟩)
        rfl (by decide) (by decide) rfl).2.1 rfl).2.1
     refine h.trans ?_
     norm_num [testStats, testParams, testConfig, jsOrStr, pricingFor, PRICING]⟩

/-- Witness for C5 at a concrete input. -/
theorem claim_C5_witness :
    (UsageStats.mk 0 5 7 "2026-09").currentMonth ≠ "2026-10"
    ∧ (trackUsage 1000000 0 "gpt-4o-mini" "2026-10" ⟨0, 5, 7, "2026-09"⟩).monthlyCostUSD = 15 / 100
    ∧ (trackUsage 1000000 0 "gpt-4o-mini" "2026-10" ⟨0, 5, 7, "2026-09"⟩).currentMonth = "2026-10" :=
  ⟨by decide,
   by
     have h := (claim_C5 ⟨0, 5, 7, "2026-09"⟩ "2026-10" "gpt-4o-mini" 1000000 0).2.1 (by decide)
     rw [h]
     norm_num [pricingFor, PRICING],
   (claim_C5 ⟨0, 5, 7, "2026-09"⟩ "2026-10" "gpt-4o-mini" 1000000 0).1⟩

/-- Witness for C10 at a concrete input. -/
theorem claim_C10_witness :
    (¬ (0 : Int) - 0 > 60000)
    ∧ chatCompletion testEnv (fun _ => 0) (fun _ => .response 429 ⟨none, none, none⟩)
        testParams ⟨some testConfig, MAX_REQUESTS_PER_MINUTE - 2, 0, testStats⟩
      = ⟨.error ⟨.API_RATE_LIMIT, "Rate limit exceeded"⟩,
         ⟨some testConfig, MAX_REQUESTS_PER_MINUTE, 0, testStats⟩, 2, [1000, 2000]⟩
    ∧ chatCompletion testEnv (fun _ => 0) (fun _ => .response 429 ⟨none, none, none⟩)
        testParams ⟨some testConfig, 0, 0, testStats⟩
      = ⟨.error ⟨.API_RATE_LIMIT, "Rate limited by OpenAI"⟩,
         ⟨some testConfig, MAX_RETRIES + 1, 0, testStats⟩, MAX_RETRIES + 1, [1000, 2000, 4000]⟩ :=
  ⟨by decide,
   (claim_C10 testEnv testParams testConfig 0 0 testStats ⟨none, none, none⟩ (by decide)).1,
   (claim_C10 testEnv testParams testConfig 0 0 testStats ⟨none, none, none⟩ (by decide)).2⟩


/-- C7: parsing the eight-line text ROLE: / Senior engineer /
OBJECTIVE: / Fix the bug / CONSTRAINTS: / Must be deterministic /
OUTPUT FORMAT: / Bullet list yields role "Senior engineer", objective
"Fix the bug", constraints ["Must be deterministic"], outputFormat
"Bullet list"; and in general ROLE and OBJECTIVE lines are joined with
single spaces, OUTPUT FORMAT lines with newlines, and the
constraint-like sections are concatenated into one ordered list in the
fixed order given by constraintSectionKeys. -/
theorem claim_C7 :
    parseEnhancedPrompt inputC7
      = ⟨"Senior engineer", "Fix the bug", ["Must be deterministic"], "Bullet list", inputC7, none⟩
    ∧ (∀ s, (parseEnhancedPrompt s).role
          = String.mk (joinChars ' ' ((getSection (sectionsOf s) "ROLE".data).getD [])))
    ∧ (∀ s, (parseEnhancedPrompt s).objective
          = String.mk (joinChars ' ' ((getSection (sectionsOf s) "OBJECTIVE".data).getD [])))
    ∧ (∀ s, (parseEnhancedPrompt s).outputFormat
          = String.mk (joinChars '\n' ((getSection (sectionsOf s) "OUTPUT FORMAT".data).getD [])))
    ∧ (∀ s, (parseEnhancedPrompt s).constraints
          = (constraintSectionKeys.foldl
              (fun acc k => acc ++ ((getSection (sectionsOf s) k).getD [])) []).map String.mk) :=
  ⟨by decide, fun s => rfl, fun s => rfl, fun s => rfl, fun s => rfl⟩


/-- C6: parsing a text with a trailing SUGGESTED_ROLE: section whose
joined content is name: "Data Analyst" | category: research |
confidence: 0.72 | reason: better fit yields a suggested-role record
with confidence 0.72 and category "research" (lower-cased by the
parser) whose fullText excludes the SUGGESTED_ROLE block; and when the
section content does not match the expected pattern the suggestion is
silently omitted while parse still returns a full result. -/
theorem claim_C6 :
    (parseEnhancedPrompt inputC6).suggestedRole
      = some ⟨"Data Analyst", "better fit", "research", some (72 / 100 : ℚ), "better fit"⟩
    ∧ (parseEnhancedPrompt inputC6).fullText = "ROLE:\nData wrangler"
    ∧ (parseEnhancedPrompt inputC6bad).suggestedRole = none
    ∧ parseEnhancedPrompt inputC6bad
      = ⟨"Data wrangler", "", [], "", "ROLE:\nData wrangler", none⟩ := by
  refine ⟨?_, by decide, by decide, by decide⟩
  rw [show (parseEnhancedPrompt inputC6).suggestedRole
        = some ⟨"Data Analyst", "better fit", "research",
            parseFloatQ ['0', '.', '7', '2'], "better fit"⟩ from rfl]
  rw [show parseFloatQ ['0', '.', '7', '2']
        = some ((digitsVal ['0'] : ℚ) + (digitsVal ['7', '2'] : ℚ) / (10 : ℚ) ^ (2 : Nat)) from rfl,
      show digitsVal ['0'] = 0 from rfl, show digitsVal ['7', '2'] = 72 from rfl]
  norm_num

/-- C8: parse is total by construction (a Lean function returning an
EnhancedPrompt for every string); parsing the empty string yields a
result whose role, objective, outputFormat and fullText are all empty
and whose constraints and suggested-role are empty/absent; and lines
appearing before any recognized section header are discarded by the
scanning loop. -/
theorem claim_C8 :
    parseEnhancedPrompt "" = ⟨"", "", [], "", "", none⟩
    ∧ (∀ pre ls secs, (∀ l ∈ pre, isHeaderLine (trimChars l) = false) →
        scanLines (pre ++ ls) [] secs = scanLines ls [] secs) := by
  refine ⟨by decide, ?_⟩
  intro pre
  induction pre with
  | nil => intro ls secs h; rfl
  | cons l pre ih =>
    intro ls secs h
    have hl : isHeaderLine (trimChars l) = false := h l (List.mem_cons_self l pre)
    simp only [List.cons_append, scanLines, hl, Bool.false_eq_true, if_false,
      List.isEmpty_nil, Bool.not_true, Bool.and_false]
    exact ih ls secs (fun x hx => h x (List.mem_cons_of_mem _ hx))

/-- Witness for the preamble-discard part of C8 at a concrete input. -/
theorem claim_C8_witness :
    (∀ l ∈ ["some prose before any header".data], isHeaderLine (trimChars l) = false)
    ∧ scanLines (["some prose before any header".data] ++ ["ROLE:".data, "engineer".data]) [] []
      = scanLines ["ROLE:".data, "engineer".data] [] [] :=
  ⟨by decide,
   claim_C8.2 ["some prose before any header".data] ["ROLE:".data, "engineer".data] []
     (by decide)⟩
